import Mathlib

set_option maxHeartbeats 1000000

/-!
Verification of the connection-lifecycle orchestrator in
`src/libs/net/traffic_generator.py`: an iperf3 client/server pair driven over
a VM console.  The remote execution environment (`BaseVirtualMachine.console`
and the `pgrep`/`pkill` tools on the target) is not part of the reviewed
sources and is modelled from the specification; everything else is a direct
shallow embedding of the Python module.
-/

namespace Tg

/-- Modelled from the spec: one call to `BaseVirtualMachine.console`, recorded
for trace reasoning — the target's name, the list of shell command strings and
the timeout passed with them (spec section 6: the sole integration point). -/
structure ConsoleCall where
  vmName : String
  commands : List String
  timeout : Nat
  deriving DecidableEq

/-- Errors of the embedded code: `CommandExecFailed` raised by the transport
(`ocp_utilities.exceptions.CommandExecFailed`) and the module's own
`ConnectionSetupError`. -/
inductive TgError where
  | commandExecFailed (msg : String)
  | connectionSetupError (msg : String)
  deriving DecidableEq

/-- Modelled from the spec: the state of the remote side.  `procs v` is the
list of full command lines of the processes currently running on the target
named `v`.  `glitch k` says whether the `k`-th console call (counted by
`count`) fails spuriously — the transport "fails with a command-execution
error on non-zero exit or timeout" (spec section 2), so any call may fail
independently of the command's meaning.  `count` is the number of console
calls issued so far. -/
structure World where
  procs : String → List String
  glitch : Nat → Bool
  count : Nat

/-- Drops `pre` from the front of `s`; `none` when `pre` is not a prefix. -/
def dropPrefixChars : List Char → List Char → Option (List Char)
  | [], s => some s
  | _ :: _, [] => none
  | a :: pre, b :: s => if a = b then dropPrefixChars pre s else none

/-- Modelled from the spec: recognises the exact-match process lookup command
issued by `_is_process_running` — a string of the shape
`pgrep -ofAx '<cmd>'` — and extracts `<cmd>`. -/
def pgrepTargetOf (cmd : String) : Option String :=
  match dropPrefixChars "pgrep -ofAx '".data cmd.data with
  | some rest =>
    match rest.reverse with
    | c :: core => if c = '\'' then some (String.mk core.reverse) else none
    | [] => none
  | none => none

/-- Modelled from the spec: recognises a background launch — a command string
of the shape `<base> &` — and extracts `<base>` (the command line the remote
process then runs under). -/
def backgroundBaseOf (cmd : String) : Option String :=
  match cmd.data.reverse with
  | '&' :: ' ' :: core => some (String.mk core.reverse)
  | _ => none

/-- Whether a process command line starts with the generator binary name —
what `pkill iperf3` matches (spec section 4.1: broad match by binary name). -/
def startsWithIperf (p : String) : Bool :=
  "iperf3".data.isPrefixOf p.data

/-- Modelled from the spec: the effect of one shell command on the target
named `vmName`.  Returns whether the command succeeded and the new process
table.  An exact-match lookup (`pgrep -ofAx '<c>'`) succeeds iff some process
whose full command line is exactly `<c>` runs on the target and changes
nothing; `pkill iperf3` terminates every process of the generator binary and
fails when none matched; a trailing `&` launches `<base>` in the background;
any other command is a foreground launch of a self-detaching daemon. -/
def execOneCmd (procs : String → List String) (vmName : String) (cmd : String) :
    Bool × (String → List String) :=
  match pgrepTargetOf cmd with
  | some target => (decide (target ∈ procs vmName), procs)
  | none =>
    if cmd = "pkill " ++ "iperf3" then
      ((procs vmName).any startsWithIperf,
       fun u => if u = vmName then (procs u).filter (fun p => !(startsWithIperf p)) else procs u)
    else
      match backgroundBaseOf cmd with
      | some base => (true, fun u => if u = vmName then base :: procs u else procs u)
      | none => (true, fun u => if u = vmName then cmd :: procs u else procs u)

/-- Runs a list of shell commands in order, stopping at the first failure. -/
def runCmds (vmName : String) : (String → List String) → List String → Bool × (String → List String)
  | procs, [] => (true, procs)
  | procs, c :: rest =>
    let r := execOneCmd procs vmName c
    if r.1 then runCmds vmName r.2 rest else (false, r.2)

/-- Modelled from the spec: `BaseVirtualMachine.console` — executes a list of
shell command strings against the named target with a timeout; fails with a
command-execution error on non-zero exit or timeout (spec sections 2 and 6).
Returns the outcome, the new world and the recorded call. -/
def vmConsole (w : World) (vmName : String) (commands : List String) (tmo : Nat) :
    Except TgError Unit × World × List ConsoleCall :=
  if w.glitch w.count then
    (Except.error (TgError.commandExecFailed "CommandExecFailed"),
     { w with count := w.count + 1 },
     [⟨vmName, commands, tmo⟩])
  else
    let r := runCmds vmName w.procs commands
    ((if r.1 then Except.ok () else Except.error (TgError.commandExecFailed "CommandExecFailed")),
     { procs := r.2, glitch := w.glitch, count := w.count + 1 },
     [⟨vmName, commands, tmo⟩])

/-- `_DEFAULT_CMD_TIMEOUT_SEC: Final[int] = 10` from the source module. -/
def _DEFAULT_CMD_TIMEOUT_SEC : Nat := 10

/-- `_IPERF_BIN: Final[str] = "iperf3"` from the source module. -/
def _IPERF_BIN : String := "iperf3"

/-- The `Server` class: name, VM (identified by its name — the only attributes
the module uses are `console` and `name`), listening port, and the command
string fixed by `__init__`. -/
structure Server where
  name : String
  vmName : String
  port : String
  cmd : String
  deriving DecidableEq

/-- `Server.__init__`: stores the arguments and builds the immutable command
string `f"{_IPERF_BIN} --server --daemon --port {self._port} --one-off"`. -/
def Server.init (name : String) (vmName : String) (port : String) : Server :=
  { name := name, vmName := vmName, port := port,
    cmd := _IPERF_BIN ++ " --server --daemon --port " ++ port ++ " --one-off" }

/-- `Server.start`: `self._vm.console(commands=[self._cmd], timeout=_DEFAULT_CMD_TIMEOUT_SEC)`. -/
def Server.start (s : Server) (w : World) : Except TgError Unit × World × List ConsoleCall :=
  vmConsole w s.vmName [s.cmd] _DEFAULT_CMD_TIMEOUT_SEC

/-- `Server.stop`: `self._vm.console(commands=[f"pkill {_IPERF_BIN}"], timeout=_DEFAULT_CMD_TIMEOUT_SEC)`. -/
def Server.stop (s : Server) (w : World) : Except TgError Unit × World × List ConsoleCall :=
  vmConsole w s.vmName ["pkill " ++ _IPERF_BIN] _DEFAULT_CMD_TIMEOUT_SEC

/-- `_is_process_running(vm, cmd)`: issues `pgrep -ofAx '{cmd}'`, returns
`True` on success, and catches `CommandExecFailed`, logging it and returning
`False`. -/
def isProcessRunning (vmName : String) (cmd : String) (w : World) :
    Bool × World × List ConsoleCall :=
  let r := vmConsole w vmName ["pgrep -ofAx '" ++ cmd ++ "'"] _DEFAULT_CMD_TIMEOUT_SEC
  match r.1 with
  | Except.ok _ => (true, r.2.1, r.2.2)
  | Except.error _ => (false, r.2.1, r.2.2)

/-- `Server.is_running`: `_is_process_running(vm=self._vm, cmd=self._cmd)`. -/
def Server.is_running (s : Server) (w : World) : Bool × World × List ConsoleCall :=
  isProcessRunning s.vmName s.cmd w

/-- The `Client` class: name, VM (by name), server address and port, and the
command string fixed by `__init__`. -/
structure Client where
  name : String
  vmName : String
  server_ip : String
  server_port : String
  cmd : String
  deriving DecidableEq

/-- `Client.__init__`: stores the arguments and builds the immutable command
string `f"{_IPERF_BIN} --client {self._server_ip} --time 0 --port {self._server_port}"`. -/
def Client.init (name : String) (vmName : String) (server_ip : String) (server_port : String) :
    Client :=
  { name := name, vmName := vmName, server_ip := server_ip, server_port := server_port,
    cmd := _IPERF_BIN ++ " --client " ++ server_ip ++ " --time 0 --port " ++ server_port }

/-- `Client.start`: `self._vm.console(commands=[f"{self._cmd} &"], timeout=_DEFAULT_CMD_TIMEOUT_SEC)`. -/
def Client.start (c : Client) (w : World) : Except TgError Unit × World × List ConsoleCall :=
  vmConsole w c.vmName [c.cmd ++ " &"] _DEFAULT_CMD_TIMEOUT_SEC

/-- `Client.stop`: `self._vm.console(commands=[f"pkill {_IPERF_BIN}"], timeout=_DEFAULT_CMD_TIMEOUT_SEC)`. -/
def Client.stop (c : Client) (w : World) : Except TgError Unit × World × List ConsoleCall :=
  vmConsole w c.vmName ["pkill " ++ _IPERF_BIN] _DEFAULT_CMD_TIMEOUT_SEC

/-- `Client.is_running`: `_is_process_running(vm=self._vm, cmd=self._cmd)`. -/
def Client.is_running (c : Client) (w : World) : Bool × World × List ConsoleCall :=
  isProcessRunning c.vmName c.cmd w

/-- The `Connection` class: owns one `Server` and one `Client`. -/
structure Connection where
  server : Server
  client : Client
  deriving DecidableEq

/-- `Connection.is_active`: `return self._server.is_running() and self._client.is_running()`
— Python `and` short-circuits, so the client lookup is issued only when the
server lookup returned `True`. -/
def Connection.is_active (c : Connection) (w : World) : Bool × World × List ConsoleCall :=
  let s := c.server.is_running w
  if s.1 then
    let cl := c.client.is_running s.2.1
    (cl.1, cl.2.1, s.2.2 ++ cl.2.2)
  else
    (false, s.2.1, s.2.2)

/-- `Connection.__enter__`: start the server, then the client, then check
`is_active()`; raise `ConnectionSetupError("Connection setup failed")` when it
is false, otherwise return `self`.  An exception from either `start`
propagates at once. -/
def Connection.enter (c : Connection) (w : World) :
    Except TgError Connection × World × List ConsoleCall :=
  let s := c.server.start w
  match s.1 with
  | Except.error e => (Except.error e, s.2.1, s.2.2)
  | Except.ok _ =>
    let cl := c.client.start s.2.1
    match cl.1 with
    | Except.error e => (Except.error e, cl.2.1, s.2.2 ++ cl.2.2)
    | Except.ok _ =>
      let a := c.is_active cl.2.1
      if a.1 then
        (Except.ok c, a.2.1, s.2.2 ++ cl.2.2 ++ a.2.2)
      else
        (Except.error (TgError.connectionSetupError "Connection setup failed"), a.2.1,
         s.2.2 ++ cl.2.2 ++ a.2.2)

/-- The second `if` of `Connection.__exit__`:
`if self._server.is_running(): self._server.stop()`. -/
def exitServerStage (c : Connection) (w : World) :
    Except TgError Unit × World × List ConsoleCall :=
  let sr := c.server.is_running w
  if sr.1 then
    let st := c.server.stop sr.2.1
    (st.1, st.2.1, sr.2.2 ++ st.2.2)
  else
    (Except.ok (), sr.2.1, sr.2.2)

/-- `Connection.__exit__`: `if self._client.is_running(): self._client.stop()`
then `if self._server.is_running(): self._server.stop()`.  There is no
`try`/`except`, so an exception raised by `self._client.stop()` propagates and
the second `if` never runs. -/
def Connection.exit (c : Connection) (w : World) :
    Except TgError Unit × World × List ConsoleCall :=
  let cr := c.client.is_running w
  if cr.1 then
    let ct := c.client.stop cr.2.1
    match ct.1 with
    | Except.error e => (Except.error e, ct.2.1, cr.2.2 ++ ct.2.2)
    | Except.ok _ =>
      let ss := exitServerStage c ct.2.1
      (ss.1, ss.2.1, cr.2.2 ++ ct.2.2 ++ ss.2.2)
  else
    let ss := exitServerStage c cr.2.1
    (ss.1, ss.2.1, cr.2.2 ++ ss.2.2)

/-- The module-level factory `connection(...)`: builds the `Server` and
`Client` and returns an unopened `Connection`; issues no console command. -/
def connection (server_name : String) (client_name : String)
    (server_vmName : String) (client_vmName : String)
    (server_ip : String) (server_port : String) : Connection :=
  { server := Server.init server_name server_vmName server_port,
    client := Client.init client_name client_vmName server_ip server_port }

/-- Maps a console outcome to the boolean `_is_process_running` degrades it
to: success becomes `true`, `CommandExecFailed` becomes `false`. -/
def exceptOkBool : Except TgError Unit → Bool
  | Except.ok _ => true
  | Except.error _ => false

/-- All console calls that the module's operations can issue, collected over
one invocation of each operation, for reasoning about the timeout they carry. -/
def opTraces (s : Server) (cl : Client) (c : Connection) (w : World) : List ConsoleCall :=
  (Server.start s w).2.2 ++ (Server.stop s w).2.2 ++ (Server.is_running s w).2.2 ++
  (Client.start cl w).2.2 ++ (Client.stop cl w).2.2 ++ (Client.is_running cl w).2.2 ++
  (Connection.enter c w).2.2 ++ (Connection.exit c w).2.2 ++ (Connection.is_active c w).2.2

/-- The caller can configure the command timeout: some invocation of some
operation issues a console call whose timeout differs from the module
constant.  (The code offers no such parameter, so this is refutable.) -/
def timeoutConfigurable : Prop :=
  ∃ (s : Server) (cl : Client) (c : Connection) (w : World) (call : ConsoleCall),
    call ∈ opTraces s cl c w ∧ call.timeout ≠ _DEFAULT_CMD_TIMEOUT_SEC

/-- Every recorded call carries the default timeout. -/
def tmo10 (t : List ConsoleCall) : Prop :=
  ∀ x ∈ t, x.timeout = _DEFAULT_CMD_TIMEOUT_SEC

/-- Concrete fixture: the connection of spec section 8, scenario A. -/
def conn0 : Connection := connection "srv" "cli" "vmB" "vmA" "10.10.0.5" "5201"

/-- Concrete fixture: process tables in which both endpoint processes run. -/
def procsBoth : String → List String :=
  fun v => if v = "vmA" then ["iperf3 --client 10.10.0.5 --time 0 --port 5201"]
           else if v = "vmB" then ["iperf3 --server --daemon --port 5201 --one-off"] else []

/-- Concrete fixture: both endpoints running, no transport failures. -/
def wRun : World := { procs := procsBoth, glitch := fun _ => false, count := 0 }

/-- Concrete fixture: no processes anywhere, no transport failures. -/
def wIdle : World := { procs := fun _ => [], glitch := fun _ => false, count := 0 }

/-- Concrete fixture: both endpoints running, the first console call fails. -/
def wGlitch0 : World := { procs := procsBoth, glitch := fun k => k == 0, count := 0 }

/-- Concrete fixture: both endpoints running, the second console call fails. -/
def wGlitch1 : World := { procs := procsBoth, glitch := fun k => k == 1, count := 0 }

/-- Concrete fixture: no processes, the first console call fails. -/
def wIdleGlitch0 : World := { procs := fun _ => [], glitch := fun k => k == 0, count := 0 }

/-- Every console call records exactly one trace entry, carrying the passed
vm name, command list and timeout. -/
theorem vmConsole_trace (w : World) (v : String) (cs : List String) (t : Nat) :
    (vmConsole w v cs t).2.2 = [⟨v, cs, t⟩] := by
  unfold vmConsole
  split <;> rfl

/-- A spuriously failing console call raises `CommandExecFailed` and leaves
the process tables unchanged. -/
theorem vmConsole_glitch (w : World) (v : String) (cs : List String) (t : Nat)
    (hg : w.glitch w.count = true) :
    vmConsole w v cs t =
      (Except.error (TgError.commandExecFailed "CommandExecFailed"),
       { w with count := w.count + 1 }, [⟨v, cs, t⟩]) := by
  unfold vmConsole
  simp [hg]

theorem dropPrefixChars_append (pre rest : List Char) :
    dropPrefixChars pre (pre ++ rest) = some rest := by
  induction pre with
  | nil => rfl
  | cons a l ih => simp [dropPrefixChars, ih]

theorem string_data_append (a b : String) : (a ++ b).data = a.data ++ b.data := rfl

/-- The lookup command built by `_is_process_running` is recognised by the
console model, and the extracted pattern is exactly the embedded command. -/
theorem pgrepTargetOf_concat (c : String) :
    pgrepTargetOf ("pgrep -ofAx '" ++ c ++ "'") = some c := by
  unfold pgrepTargetOf
  have hdata : ("pgrep -ofAx '" ++ c ++ "'").data
      = "pgrep -ofAx '".data ++ (c.data ++ ['\'']) := by
    rw [string_data_append, string_data_append, List.append_assoc]
  rw [hdata, dropPrefixChars_append]
  simp [List.reverse_append]

theorem execOneCmd_pgrep (procs : String → List String) (v c : String) :
    execOneCmd procs v ("pgrep -ofAx '" ++ c ++ "'")
      = (decide (c ∈ procs v), procs) := by
  unfold execOneCmd
  rw [pgrepTargetOf_concat]

/-- The exact-match lookup: succeeds iff the call is not glitched and the
exact command line is present; never changes the process tables. -/
theorem vmConsole_pgrep (w : World) (v c : String) :
    vmConsole w v ["pgrep -ofAx '" ++ c ++ "'"] _DEFAULT_CMD_TIMEOUT_SEC
      = (if (!(w.glitch w.count)) && decide (c ∈ w.procs v) then Except.ok ()
         else Except.error (TgError.commandExecFailed "CommandExecFailed"),
         { w with count := w.count + 1 },
         [⟨v, ["pgrep -ofAx '" ++ c ++ "'"], _DEFAULT_CMD_TIMEOUT_SEC⟩]) := by
  unfold vmConsole
  cases hg : w.glitch w.count with
  | true => simp
  | false =>
    simp only [Bool.false_eq_true, if_false, Bool.not_false, Bool.true_and]
    simp only [runCmds, execOneCmd_pgrep]
    cases hm : decide (c ∈ w.procs v) with
    | true => simp [runCmds]
    | false => simp [runCmds]

/-- `_is_process_running` in closed form: a boolean result — true iff the
lookup call went through and found the exact command line — a bumped call
counter, unchanged process tables, and the single recorded lookup call. -/
theorem isProcessRunning_spec (v c : String) (w : World) :
    isProcessRunning v c w
      = ((!(w.glitch w.count)) && decide (c ∈ w.procs v),
         { w with count := w.count + 1 },
         [⟨v, ["pgrep -ofAx '" ++ c ++ "'"], _DEFAULT_CMD_TIMEOUT_SEC⟩]) := by
  unfold isProcessRunning
  rw [vmConsole_pgrep]
  cases hb : (!(w.glitch w.count)) && decide (c ∈ w.procs v) with
  | true => simp
  | false => simp

theorem server_is_running_spec (s : Server) (w : World) :
    Server.is_running s w
      = ((!(w.glitch w.count)) && decide (s.cmd ∈ w.procs s.vmName),
         { w with count := w.count + 1 },
         [⟨s.vmName, ["pgrep -ofAx '" ++ s.cmd ++ "'"], _DEFAULT_CMD_TIMEOUT_SEC⟩]) :=
  isProcessRunning_spec s.vmName s.cmd w

theorem client_is_running_spec (cl : Client) (w : World) :
    Client.is_running cl w
      = ((!(w.glitch w.count)) && decide (cl.cmd ∈ w.procs cl.vmName),
         { w with count := w.count + 1 },
         [⟨cl.vmName, ["pgrep -ofAx '" ++ cl.cmd ++ "'"], _DEFAULT_CMD_TIMEOUT_SEC⟩]) :=
  isProcessRunning_spec cl.vmName cl.cmd w

theorem pgrepTargetOf_pkill : pgrepTargetOf ("pkill " ++ _IPERF_BIN) = none := by decide

theorem execOneCmd_pkill (procs : String → List String) (v : String) :
    execOneCmd procs v ("pkill " ++ _IPERF_BIN)
      = ((procs v).any startsWithIperf,
         fun u => if u = v then (procs u).filter (fun p => !(startsWithIperf p)) else procs u) := by
  unfold execOneCmd
  rw [show ("pkill " ++ _IPERF_BIN) = "pkill iperf3" from rfl]
  rw [show pgrepTargetOf "pkill iperf3" = none from pgrepTargetOf_pkill]
  simp

/-- The termination command: kills every process of the generator binary on
the target, succeeding iff at least one was running there. -/
theorem vmConsole_pkill_ok (w : World) (v : String) (hg : w.glitch w.count = false) :
    vmConsole w v ["pkill " ++ _IPERF_BIN] _DEFAULT_CMD_TIMEOUT_SEC
      = (if (w.procs v).any startsWithIperf then Except.ok ()
         else Except.error (TgError.commandExecFailed "CommandExecFailed"),
         { procs := fun u => if u = v then (w.procs u).filter (fun p => !(startsWithIperf p)) else w.procs u,
           glitch := w.glitch, count := w.count + 1 },
         [⟨v, ["pkill " ++ _IPERF_BIN], _DEFAULT_CMD_TIMEOUT_SEC⟩]) := by
  unfold vmConsole
  simp only [hg, Bool.false_eq_true, if_false, runCmds, execOneCmd_pkill]
  cases ha : (w.procs v).any startsWithIperf with
  | true => simp [runCmds]
  | false => simp [runCmds]

theorem isPrefixOfAppendChars (pre rest : List Char) :
    pre.isPrefixOf (pre ++ rest) = true := by
  induction pre with
  | nil => simp [List.isPrefixOf]
  | cons a l ih => simp [List.isPrefixOf, ih]

/-- Every server command string starts with the generator binary name. -/
theorem startsWithIperf_server_cmd (n v port : String) :
    startsWithIperf (Server.init n v port).cmd = true := by
  unfold startsWithIperf Server.init _IPERF_BIN
  simp only [string_data_append, List.append_assoc]
  exact isPrefixOfAppendChars _ _

/-- Every client command string starts with the generator binary name. -/
theorem startsWithIperf_client_cmd (n v ip port : String) :
    startsWithIperf (Client.init n v ip port).cmd = true := by
  unfold startsWithIperf Client.init _IPERF_BIN
  simp only [string_data_append, List.append_assoc]
  exact isPrefixOfAppendChars _ _

theorem tmo10_append {a b : List ConsoleCall} (ha : tmo10 a) (hb : tmo10 b) :
    tmo10 (a ++ b) := by
  intro x hx
  rcases List.mem_append.mp hx with h | h
  · exact ha x h
  · exact hb x h

theorem tmo10_vmConsole (w : World) (v : String) (cs : List String) :
    tmo10 (vmConsole w v cs _DEFAULT_CMD_TIMEOUT_SEC).2.2 := by
  rw [vmConsole_trace]
  intro x hx
  simp only [List.mem_singleton] at hx
  subst hx
  rfl

theorem tmo10_isRun (v c : String) (w : World) : tmo10 (isProcessRunning v c w).2.2 := by
  rw [isProcessRunning_spec]
  intro x hx
  simp only [List.mem_singleton] at hx
  subst hx
  rfl

theorem tmo10_is_active (c : Connection) (w : World) :
    tmo10 (Connection.is_active c w).2.2 := by
  unfold Connection.is_active
  dsimp only
  split
  · exact tmo10_append (tmo10_isRun _ _ _) (tmo10_isRun _ _ _)
  · exact tmo10_isRun _ _ _

theorem tmo10_enter (c : Connection) (w : World) :
    tmo10 (Connection.enter c w).2.2 := by
  unfold Connection.enter
  dsimp only
  split
  · exact tmo10_vmConsole _ _ _
  · split
    · exact tmo10_append (tmo10_vmConsole _ _ _) (tmo10_vmConsole _ _ _)
    · split
      · exact tmo10_append (tmo10_append (tmo10_vmConsole _ _ _) (tmo10_vmConsole _ _ _))
          (tmo10_is_active _ _)
      · exact tmo10_append (tmo10_append (tmo10_vmConsole _ _ _) (tmo10_vmConsole _ _ _))
          (tmo10_is_active _ _)

theorem tmo10_exitServerStage (c : Connection) (w : World) :
    tmo10 (exitServerStage c w).2.2 := by
  unfold exitServerStage
  dsimp only
  split
  · exact tmo10_append (tmo10_isRun _ _ _) (tmo10_vmConsole _ _ _)
  · exact tmo10_isRun _ _ _

theorem tmo10_exit (c : Connection) (w : World) :
    tmo10 (Connection.exit c w).2.2 := by
  unfold Connection.exit
  dsimp only
  split
  · split
    · exact tmo10_append (tmo10_isRun _ _ _) (tmo10_vmConsole _ _ _)
    · exact tmo10_append (tmo10_append (tmo10_isRun _ _ _) (tmo10_vmConsole _ _ _))
        (tmo10_exitServerStage _ _)
  · exact tmo10_append (tmo10_isRun _ _ _) (tmo10_exitServerStage _ _)

theorem tmo10_opTraces (s : Server) (cl : Client) (c : Connection) (w : World) :
    tmo10 (opTraces s cl c w) := by
  unfold opTraces
  exact tmo10_append (tmo10_append (tmo10_append (tmo10_append (tmo10_append (tmo10_append
    (tmo10_append (tmo10_append (tmo10_vmConsole _ _ _) (tmo10_vmConsole _ _ _))
      (tmo10_isRun _ _ _)) (tmo10_vmConsole _ _ _)) (tmo10_vmConsole _ _ _))
        (tmo10_isRun _ _ _)) (tmo10_enter _ _)) (tmo10_exit _ _)) (tmo10_is_active _ _)

theorem exitServerStage_idle_eq (c : Connection) (w : World)
    (hd : ((!(w.glitch w.count)) && decide (c.server.cmd ∈ w.procs c.server.vmName)) = false) :
    exitServerStage c w
      = (Except.ok (), { w with count := w.count + 1 },
         [⟨c.server.vmName, ["pgrep -ofAx '" ++ c.server.cmd ++ "'"], _DEFAULT_CMD_TIMEOUT_SEC⟩]) := by
  unfold exitServerStage
  rw [server_is_running_spec]
  simp [hd]

theorem exitServerStage_glitchfree (c : Connection) (w : World)
    (hg : ∀ k, w.glitch k = false)
    (hpre : startsWithIperf c.server.cmd = true) :
    (exitServerStage c w).1 = Except.ok ()
    ∧ (exitServerStage c w).2.1.glitch = w.glitch
    ∧ c.server.cmd ∉ (exitServerStage c w).2.1.procs c.server.vmName
    ∧ (∀ u p, p ∈ (exitServerStage c w).2.1.procs u → p ∈ w.procs u) := by
  cases hd : decide (c.server.cmd ∈ w.procs c.server.vmName) with
  | false =>
    rw [exitServerStage_idle_eq c w (by simp [hg, hd])]
    refine ⟨rfl, rfl, ?_, ?_⟩
    · exact of_decide_eq_false hd
    · intro u p hp
      exact hp
  | true =>
    unfold exitServerStage Server.stop
    rw [server_is_running_spec]
    simp only [hg, Bool.not_false, Bool.true_and, hd, if_true]
    rw [vmConsole_pkill_ok { w with count := w.count + 1 } c.server.vmName (hg _)]
    have ha : (({ w with count := w.count + 1 } : World).procs c.server.vmName).any startsWithIperf = true :=
      List.any_eq_true.mpr ⟨c.server.cmd, of_decide_eq_true hd, hpre⟩
    simp only [ha, if_true]
    refine ⟨trivial, trivial, ?_, ?_⟩
    · intro hmem
      have hmem2 : c.server.cmd ∈ (w.procs c.server.vmName).filter (fun p => !(startsWithIperf p)) := by
        simpa using hmem
      have hb := (List.mem_filter.mp hmem2).2
      rw [hpre] at hb
      simp at hb
    · intro u p hp
      by_cases hu : u = c.server.vmName
      · subst hu
        have hp2 : p ∈ (w.procs c.server.vmName).filter (fun q => !(startsWithIperf q)) := by
          simpa using hp
        exact (List.mem_filter.mp hp2).1
      · simpa [hu] using hp



theorem exit_glitchfree (c : Connection) (w : World)
    (hg : ∀ k, w.glitch k = false)
    (hcp : startsWithIperf c.client.cmd = true)
    (hsp : startsWithIperf c.server.cmd = true) :
    (Connection.exit c w).1 = Except.ok ()
    ∧ (Connection.exit c w).2.1.glitch = w.glitch
    ∧ c.client.cmd ∉ (Connection.exit c w).2.1.procs c.client.vmName
    ∧ c.server.cmd ∉ (Connection.exit c w).2.1.procs c.server.vmName := by
  unfold Connection.exit Client.stop
  rw [client_is_running_spec]
  simp only [hg, Bool.not_false, Bool.true_and]
  cases hd : decide (c.client.cmd ∈ w.procs c.client.vmName) with
  | false =>
    simp only [Bool.false_eq_true, if_false]
    have hst := exitServerStage_glitchfree c { w with count := w.count + 1 } (fun k => hg k) hsp
    refine ⟨hst.1, hst.2.1, ?_, hst.2.2.1⟩
    · intro hmem
      have := hst.2.2.2 c.client.vmName c.client.cmd hmem
      exact absurd this (of_decide_eq_false hd)
  | true =>
    simp only [if_true]
    rw [vmConsole_pkill_ok { w with count := w.count + 1 } c.client.vmName (hg _)]
    have ha : (({ w with count := w.count + 1 } : World).procs c.client.vmName).any startsWithIperf = true :=
      List.any_eq_true.mpr ⟨c.client.cmd, of_decide_eq_true hd, hcp⟩
    simp only [ha, if_true]
    have hst := exitServerStage_glitchfree c
      { procs := fun u => if u = c.client.vmName
            then (({ w with count := w.count + 1 } : World).procs u).filter (fun p => !(startsWithIperf p))
            else ({ w with count := w.count + 1 } : World).procs u,
        glitch := ({ w with count := w.count + 1 } : World).glitch,
        count := ({ w with count := w.count + 1 } : World).count + 1 }
      (fun k => hg k) hsp
    refine ⟨hst.1, hst.2.1, ?_, hst.2.2.1⟩
    · intro hmem
      have h2 := hst.2.2.2 c.client.vmName c.client.cmd hmem
      have h3 : c.client.cmd ∈ (w.procs c.client.vmName).filter (fun p => !(startsWithIperf p)) := by
        simpa using h2
      have hb := (List.mem_filter.mp h3).2
      rw [hcp] at hb
      simp at hb


theorem exit_no_procs (c : Connection) (w : World)
    (hg : ∀ k, w.glitch k = false)
    (hcn : c.client.cmd ∉ w.procs c.client.vmName)
    (hsn : c.server.cmd ∉ w.procs c.server.vmName) :
    (Connection.exit c w).1 = Except.ok ()
    ∧ (Connection.exit c w).2.2
        = [⟨c.client.vmName, ["pgrep -ofAx '" ++ c.client.cmd ++ "'"], _DEFAULT_CMD_TIMEOUT_SEC⟩,
           ⟨c.server.vmName, ["pgrep -ofAx '" ++ c.server.cmd ++ "'"], _DEFAULT_CMD_TIMEOUT_SEC⟩] := by
  unfold Connection.exit
  rw [client_is_running_spec]
  have hd1 : decide (c.client.cmd ∈ w.procs c.client.vmName) = false := decide_eq_false hcn
  simp only [hg, Bool.not_false, Bool.true_and, hd1, Bool.false_eq_true, if_false]
  rw [exitServerStage_idle_eq c { w with count := w.count + 1 } (by simp [hg, decide_eq_false hsn])]
  constructor
  · rfl
  · rfl

theorem exit_then_exit (c : Connection) (w : World)
    (hg : ∀ k, w.glitch k = false)
    (hcp : startsWithIperf c.client.cmd = true)
    (hsp : startsWithIperf c.server.cmd = true) :
    (Connection.exit c (Connection.exit c w).2.1).1 = Except.ok ()
    ∧ (Connection.exit c (Connection.exit c w).2.1).2.2
        = [⟨c.client.vmName, ["pgrep -ofAx '" ++ c.client.cmd ++ "'"], _DEFAULT_CMD_TIMEOUT_SEC⟩,
           ⟨c.server.vmName, ["pgrep -ofAx '" ++ c.server.cmd ++ "'"], _DEFAULT_CMD_TIMEOUT_SEC⟩] := by
  obtain ⟨h1, h2, h3, h4⟩ := exit_glitchfree c w hg hcp hsp
  have hgW : ∀ k, (Connection.exit c w).2.1.glitch k = false := by
    intro k
    rw [h2]
    exact hg k
  exact exit_no_procs c (Connection.exit c w).2.1 hgW h3 h4

/-- Claim C1, amended: during scoped release, a `CommandExecFailed` raised by
the client's `stop()` propagates out of `Connection.__exit__` at once — the
server's `is_running()` check and `stop()` are not issued (the release trace
is exactly the client lookup followed by the failed client stop). -/
theorem C1_thm (c : Connection) (w : World) (e : TgError)
    (h1 : (c.client.is_running w).1 = true)
    (h2 : (c.client.stop (c.client.is_running w).2.1).1 = Except.error e) :
    Connection.exit c w
      = (Except.error e,
         (c.client.stop (c.client.is_running w).2.1).2.1,
         (c.client.is_running w).2.2 ++ (c.client.stop (c.client.is_running w).2.1).2.2) := by
  unfold Connection.exit
  simp only [h1, if_true, h2]

/-- Claim C1, counterexample: a concrete run in which the client reports
running, its stop raises a command-execution error, and scoped release issues
no call at all to the server's VM (`vmB`) — refuting that the server's
`is_running()`/`stop()` are still issued. -/
theorem C1_counterexample :
    (conn0.client.is_running wGlitch1).1 = true
    ∧ (Connection.exit conn0 wGlitch1).1
        = Except.error (TgError.commandExecFailed "CommandExecFailed")
    ∧ (Connection.exit conn0 wGlitch1).2.2
        = [⟨"vmA", ["pgrep -ofAx 'iperf3 --client 10.10.0.5 --time 0 --port 5201'"], 10⟩,
           ⟨"vmA", ["pkill iperf3"], 10⟩] :=
  ⟨rfl, rfl, rfl⟩

/-- Claim C1, witness for the amended theorem at a concrete input. -/
theorem C1_witness :
    (conn0.client.is_running wGlitch1).1 = true
    ∧ (conn0.client.stop (conn0.client.is_running wGlitch1).2.1).1
        = Except.error (TgError.commandExecFailed "CommandExecFailed")
    ∧ Connection.exit conn0 wGlitch1
        = (Except.error (TgError.commandExecFailed "CommandExecFailed"),
           (conn0.client.stop (conn0.client.is_running wGlitch1).2.1).2.1,
           (conn0.client.is_running wGlitch1).2.2
             ++ (conn0.client.stop (conn0.client.is_running wGlitch1).2.1).2.2) :=
  ⟨rfl, rfl, C1_thm conn0 wGlitch1 (TgError.commandExecFailed "CommandExecFailed") rfl rfl⟩

/-- Claim C2: `is_running` always returns a boolean — the boolean degradation
of the console outcome, `false` exactly when the lookup call failed — both
endpoint methods are that query on their own command, and a failing executor
call (here: a glitched one) yields `false`, never an exception. -/
theorem C2_thm (v cmd : String) (w : World) (s : Server) (cl : Client) :
    (isProcessRunning v cmd w).1
        = exceptOkBool (vmConsole w v ["pgrep -ofAx '" ++ cmd ++ "'"] _DEFAULT_CMD_TIMEOUT_SEC).1
    ∧ Server.is_running s w = isProcessRunning s.vmName s.cmd w
    ∧ Client.is_running cl w = isProcessRunning cl.vmName cl.cmd w
    ∧ (w.glitch w.count = true → (isProcessRunning v cmd w).1 = false) := by
  refine ⟨?_, rfl, rfl, ?_⟩
  · unfold isProcessRunning
    cases hr : (vmConsole w v ["pgrep -ofAx '" ++ cmd ++ "'"] _DEFAULT_CMD_TIMEOUT_SEC).1 with
    | ok u => simp [hr, exceptOkBool]
    | error e => simp [hr, exceptOkBool]
  · intro hg
    rw [isProcessRunning_spec]
    simp [hg]

/-- Claim C2, witness: the lookup call fails (transport glitch) although the
process exists, and `is_running` degrades to `false`. -/
theorem C2_witness :
    wGlitch0.glitch wGlitch0.count = true
    ∧ (isProcessRunning "vmA" "iperf3 --client 10.10.0.5 --time 0 --port 5201" wGlitch0).1 = false :=
  ⟨rfl,
   (C2_thm "vmA" "iperf3 --client 10.10.0.5 --time 0 --port 5201" wGlitch0
     conn0.server conn0.client).2.2.2 rfl⟩

/-- Claim C3: scoped entry starts both endpoints; when both starts return,
the result is `self` if `is_active()` is true and a raised
`ConnectionSetupError` otherwise, with the world and trace of the two starts
and the liveness check. -/
theorem C3_thm (c : Connection) (w : World)
    (h1 : (c.server.start w).1 = Except.ok ())
    (h2 : (c.client.start (c.server.start w).2.1).1 = Except.ok ()) :
    Connection.enter c w
      = (if (Connection.is_active c (c.client.start (c.server.start w).2.1).2.1).1
           then Except.ok c
           else Except.error (TgError.connectionSetupError "Connection setup failed"),
         (Connection.is_active c (c.client.start (c.server.start w).2.1).2.1).2.1,
         (c.server.start w).2.2
           ++ (c.client.start (c.server.start w).2.1).2.2
           ++ (Connection.is_active c (c.client.start (c.server.start w).2.1).2.1).2.2) := by
  unfold Connection.enter
  simp only [h1, h2]
  cases ha : (Connection.is_active c (c.client.start (c.server.start w).2.1).2.1).1 with
  | true => simp [ha]
  | false => simp [ha]

/-- Claim C3, witness: from an idle world both starts succeed, the liveness
check passes and entry returns the connection. -/
theorem C3_witness :
    (conn0.server.start wIdle).1 = Except.ok ()
    ∧ (conn0.client.start (conn0.server.start wIdle).2.1).1 = Except.ok ()
    ∧ Connection.enter conn0 wIdle
        = (if (Connection.is_active conn0 (conn0.client.start (conn0.server.start wIdle).2.1).2.1).1
             then Except.ok conn0
             else Except.error (TgError.connectionSetupError "Connection setup failed"),
           (Connection.is_active conn0 (conn0.client.start (conn0.server.start wIdle).2.1).2.1).2.1,
           (conn0.server.start wIdle).2.2
             ++ (conn0.client.start (conn0.server.start wIdle).2.1).2.2
             ++ (Connection.is_active conn0 (conn0.client.start (conn0.server.start wIdle).2.1).2.1).2.2)
    ∧ (Connection.enter conn0 wIdle).1 = Except.ok conn0 :=
  ⟨rfl, rfl, C3_thm conn0 wIdle rfl rfl, rfl⟩


/-- Claim C4: the first console call of every scoped entry is the server's
start command; if the server's start raises, entry returns that error with
only the server call issued (the client start command is never issued); and
when the server's start succeeds, the second recorded call is the client's
start command. -/
theorem C4_thm (c : Connection) (w : World) :
    (Connection.enter c w).2.2.head?
        = some ⟨c.server.vmName, [c.server.cmd], _DEFAULT_CMD_TIMEOUT_SEC⟩
    ∧ (∀ e : TgError, (c.server.start w).1 = Except.error e →
        Connection.enter c w = (Except.error e, (c.server.start w).2.1, (c.server.start w).2.2))
    ∧ ((c.server.start w).1 = Except.ok () →
        ((Connection.enter c w).2.2.drop 1).head?
          = some ⟨c.client.vmName, [c.client.cmd ++ " &"], _DEFAULT_CMD_TIMEOUT_SEC⟩) := by
  have hs : (c.server.start w).2.2
      = [⟨c.server.vmName, [c.server.cmd], _DEFAULT_CMD_TIMEOUT_SEC⟩] :=
    vmConsole_trace w c.server.vmName [c.server.cmd] _DEFAULT_CMD_TIMEOUT_SEC
  have hcl : ∀ w' : World, (c.client.start w').2.2
      = [⟨c.client.vmName, [c.client.cmd ++ " &"], _DEFAULT_CMD_TIMEOUT_SEC⟩] :=
    fun w' => vmConsole_trace w' c.client.vmName [c.client.cmd ++ " &"] _DEFAULT_CMD_TIMEOUT_SEC
  refine ⟨?_, ?_, ?_⟩
  · unfold Connection.enter
    cases he : (c.server.start w).1 with
    | error e => simp [he, hs]
    | ok u =>
      cases hce : (c.client.start (c.server.start w).2.1).1 with
      | error e2 => simp [he, hce, hs]
      | ok u2 =>
        cases ha : (Connection.is_active c (c.client.start (c.server.start w).2.1).2.1).1 with
        | true => simp [he, hce, ha, hs]
        | false => simp [he, hce, ha, hs]
  · intro e he
    unfold Connection.enter
    simp only [he]
  · intro he
    unfold Connection.enter
    cases hce : (c.client.start (c.server.start w).2.1).1 with
    | error e2 => simp [he, hce, hs, hcl]
    | ok u2 =>
      cases ha : (Connection.is_active c (c.client.start (c.server.start w).2.1).2.1).1 with
      | true => simp [he, hce, ha, hs, hcl]
      | false => simp [he, hce, ha, hs, hcl]

/-- Claim C4, witness: with the first console call glitched, the server start
fails and scoped entry stops there — the trace still begins with the server
start call and contains nothing else. -/
theorem C4_witness :
    (Connection.enter conn0 wIdleGlitch0).2.2.head?
        = some ⟨conn0.server.vmName, [conn0.server.cmd], _DEFAULT_CMD_TIMEOUT_SEC⟩
    ∧ (conn0.server.start wIdleGlitch0).1
        = Except.error (TgError.commandExecFailed "CommandExecFailed")
    ∧ Connection.enter conn0 wIdleGlitch0
        = (Except.error (TgError.commandExecFailed "CommandExecFailed"),
           (conn0.server.start wIdleGlitch0).2.1, (conn0.server.start wIdleGlitch0).2.2) :=
  ⟨(C4_thm conn0 wIdleGlitch0).1, rfl,
   (C4_thm conn0 wIdleGlitch0).2.1 (TgError.commandExecFailed "CommandExecFailed") rfl⟩

/-- Claim C5: each endpoint's command string is fixed at construction to the
exact iperf3 invocation, `is_running` issues exactly one
`pgrep -ofAx '<that command>'` lookup against the endpoint's VM, and a `true`
result requires a process whose full command line is exactly that string —
so it is `false` whenever no exact match runs. -/
theorem C5_thm (sn sv sport cn cv cip : String) (w : World) :
    (Server.init sn sv sport).cmd = "iperf3 --server --daemon --port " ++ sport ++ " --one-off"
    ∧ (Server.is_running (Server.init sn sv sport) w).2.2
        = [⟨sv, ["pgrep -ofAx '" ++ (Server.init sn sv sport).cmd ++ "'"], _DEFAULT_CMD_TIMEOUT_SEC⟩]
    ∧ ((Server.is_running (Server.init sn sv sport) w).1 = true
        → (Server.init sn sv sport).cmd ∈ w.procs sv)
    ∧ (Client.init cn cv cip sport).cmd = "iperf3 --client " ++ cip ++ " --time 0 --port " ++ sport
    ∧ (Client.is_running (Client.init cn cv cip sport) w).2.2
        = [⟨cv, ["pgrep -ofAx '" ++ (Client.init cn cv cip sport).cmd ++ "'"], _DEFAULT_CMD_TIMEOUT_SEC⟩]
    ∧ ((Client.is_running (Client.init cn cv cip sport) w).1 = true
        → (Client.init cn cv cip sport).cmd ∈ w.procs cv) := by
  refine ⟨rfl, ?_, ?_, rfl, ?_, ?_⟩
  · rw [server_is_running_spec]
    rfl
  · intro h
    rw [server_is_running_spec] at h
    simp only [Bool.and_eq_true, decide_eq_true_eq] at h
    exact h.2
  · rw [client_is_running_spec]
    rfl
  · intro h
    rw [client_is_running_spec] at h
    simp only [Bool.and_eq_true, decide_eq_true_eq] at h
    exact h.2

/-- Claim C5, witness: in a world where the exact server command line runs on
`vmB`, the lookup reports `true` and the exact-match consequence holds. -/
theorem C5_witness :
    (Server.is_running (Server.init "srv" "vmB" "5201") wRun).1 = true
    ∧ (Server.init "srv" "vmB" "5201").cmd ∈ wRun.procs "vmB" :=
  ⟨rfl, (C5_thm "srv" "vmB" "5201" "cli" "vmA" "10.10.0.5" wRun).2.2.1 rfl⟩

/-- Claim C6, amended: every operation issues its console commands with the
fixed module timeout `_DEFAULT_CMD_TIMEOUT_SEC = 10`; no operation exposes a
timeout parameter to the caller. -/
theorem C6_thm (s : Server) (cl : Client) (c : Connection) (w : World) :
    ((opTraces s cl c w).all (fun x => x.timeout == _DEFAULT_CMD_TIMEOUT_SEC)) = true
    ∧ _DEFAULT_CMD_TIMEOUT_SEC = 10 := by
  refine ⟨?_, rfl⟩
  rw [List.all_eq_true]
  intro x hx
  simp only [beq_iff_eq]
  exact tmo10_opTraces s cl c w x hx

/-- Claim C6, counterexample: the timeout is not configurable — no invocation
of any operation, over all endpoints, connections and worlds, ever issues a
console call whose timeout differs from the module constant. -/
theorem C6_counterexample : ¬ timeoutConfigurable := by
  rintro ⟨s, cl, c, w, call, hmem, hne⟩
  exact hne (tmo10_opTraces s cl c w call hmem)


/-- Claim C7: scoped release stops the client only if it reports running,
then the server only if it reports running, in that order (conjuncts 1-3:
a not-running endpoint gets no stop command, and when the client stop
succeeds the trace is client lookup, client stop, then the server stage);
and, with a failure-free transport, a second scoped release after a release
that completed successfully issues only the two lookups and no stop command
(conjunct 4). -/
theorem C7_thm (sn cn sv cv ip port : String) (c : Connection) (w : World)
    (hc : c = connection sn cn sv cv ip port) :
    ((c.client.is_running w).1 = false →
        Connection.exit c w
          = ((exitServerStage c (c.client.is_running w).2.1).1,
             (exitServerStage c (c.client.is_running w).2.1).2.1,
             (c.client.is_running w).2.2 ++ (exitServerStage c (c.client.is_running w).2.1).2.2))
    ∧ ((c.server.is_running w).1 = false →
        exitServerStage c w
          = (Except.ok (), (c.server.is_running w).2.1, (c.server.is_running w).2.2))
    ∧ ((c.client.is_running w).1 = true →
        (c.client.stop (c.client.is_running w).2.1).1 = Except.ok () →
        (Connection.exit c w).2.2
          = (c.client.is_running w).2.2
            ++ (c.client.stop (c.client.is_running w).2.1).2.2
            ++ (exitServerStage c (c.client.stop (c.client.is_running w).2.1).2.1).2.2)
    ∧ ((∀ k, w.glitch k = false) →
        (Connection.exit c w).1 = Except.ok () →
        (Connection.exit c (Connection.exit c w).2.1).1 = Except.ok ()
        ∧ (Connection.exit c (Connection.exit c w).2.1).2.2
            = [⟨c.client.vmName, ["pgrep -ofAx '" ++ c.client.cmd ++ "'"], _DEFAULT_CMD_TIMEOUT_SEC⟩,
               ⟨c.server.vmName, ["pgrep -ofAx '" ++ c.server.cmd ++ "'"], _DEFAULT_CMD_TIMEOUT_SEC⟩]) := by
  refine ⟨?_, ?_, ?_, ?_⟩
  · intro h
    unfold Connection.exit
    simp only [h, Bool.false_eq_true, if_false]
  · intro h
    unfold exitServerStage
    simp only [h, Bool.false_eq_true, if_false]
  · intro h1 h2
    unfold Connection.exit
    simp only [h1, if_true, h2]
  · intro hg hok
    subst hc
    exact exit_then_exit _ w hg (startsWithIperf_client_cmd cn cv ip port)
      (startsWithIperf_server_cmd sn sv port)

/-- Claim C7, witness: from a world with both endpoint processes running and
no transport failures, the first release completes successfully and the
second release issues exactly the two lookups — no stop command. -/
theorem C7_witness :
    (Connection.exit conn0 wRun).1 = Except.ok ()
    ∧ ((Connection.exit conn0 (Connection.exit conn0 wRun).2.1).1 = Except.ok ()
       ∧ (Connection.exit conn0 (Connection.exit conn0 wRun).2.1).2.2
           = [⟨conn0.client.vmName, ["pgrep -ofAx '" ++ conn0.client.cmd ++ "'"], _DEFAULT_CMD_TIMEOUT_SEC⟩,
              ⟨conn0.server.vmName, ["pgrep -ofAx '" ++ conn0.server.cmd ++ "'"], _DEFAULT_CMD_TIMEOUT_SEC⟩]) :=
  ⟨rfl, (C7_thm "srv" "cli" "vmB" "vmA" "10.10.0.5" "5201" conn0 wRun rfl).2.2.2
      (fun _ => rfl) rfl⟩

/-- Claim C8: `is_active` returns exactly the conjunction of the server's and
then the client's liveness at the moment of the call (threaded world), never
raises (it is boolean-valued by construction), and performs no retry — it
issues two lookups when the server reports running and one otherwise. -/
theorem C8_thm (c : Connection) (w : World) :
    (Connection.is_active c w).1
        = ((c.server.is_running w).1 && (c.client.is_running (c.server.is_running w).2.1).1)
    ∧ (Connection.is_active c w).2.2.length
        = if (c.server.is_running w).1 then 2 else 1 := by
  unfold Connection.is_active
  cases hb : (c.server.is_running w).1 with
  | false =>
    constructor
    · simp [hb]
    · simp only [hb, Bool.false_eq_true, if_false]
      simp [server_is_running_spec]
  | true =>
    constructor
    · simp [hb]
    · simp only [hb, if_true]
      simp [server_is_running_spec, client_is_running_spec]

/-- Claim C9: the factory is pure construction — it returns the unopened
connection whose server is built from the server name, server VM and port and
whose client is built from the client name, client VM, server address and
port, with the two exact command strings and no console interaction (the
factory does not touch the world). -/
theorem C9_thm (sn cn sv cv ip port : String) :
    connection sn cn sv cv ip port
      = { server := { name := sn, vmName := sv, port := port,
                      cmd := "iperf3 --server --daemon --port " ++ port ++ " --one-off" },
          client := { name := cn, vmName := cv, server_ip := ip, server_port := port,
                      cmd := "iperf3 --client " ++ ip ++ " --time 0 --port " ++ port } } := rfl

/-- Claim C10: `is_active` short-circuits — when the server's lookup reports
not running, the result is `false`, the world is the one after the server
lookup only, and the whole trace is that single server-side lookup: no call
is issued to the client's VM. -/
theorem C10_thm (c : Connection) (w : World)
    (h : (c.server.is_running w).1 = false) :
    Connection.is_active c w
        = (false, (c.server.is_running w).2.1, (c.server.is_running w).2.2)
    ∧ (c.server.is_running w).2.2
        = [⟨c.server.vmName, ["pgrep -ofAx '" ++ c.server.cmd ++ "'"], _DEFAULT_CMD_TIMEOUT_SEC⟩] := by
  constructor
  · unfold Connection.is_active
    simp [h]
  · rw [server_is_running_spec]

/-- Claim C10, witness: with no process running anywhere, the server lookup
reports false and `is_active` issues only that single call. -/
theorem C10_witness :
    (conn0.server.is_running wIdle).1 = false
    ∧ Connection.is_active conn0 wIdle
        = (false, (conn0.server.is_running wIdle).2.1, (conn0.server.is_running wIdle).2.2)
    ∧ (conn0.server.is_running wIdle).2.2
        = [⟨conn0.server.vmName, ["pgrep -ofAx '" ++ conn0.server.cmd ++ "'"], _DEFAULT_CMD_TIMEOUT_SEC⟩] :=
  ⟨rfl, (C10_thm conn0 wIdle rfl).1, (C10_thm conn0 wIdle rfl).2⟩

end Tg
